import Mathlib

/-!
Verification of `src/backend/voice_recognition.py` (class `VoiceRecognizer`).

The module is a thin wrapper around the `speech_recognition` library: it
captures audio segments on a worker thread, sends each to a transcription
provider, and delivers lowercased text to a caller-supplied callback.

Shallow embedding conventions:
* Exceptions raised by external collaborators are modelled as variants of
  inductive outcome types (`ProviderResult` for the provider call inside
  `recognize_audio`, `ListenResult` for one `recognizer.listen` attempt,
  `InitEnv` for microphone acquisition/calibration during
  `listen_continuously`).
* A Python function that may raise to its caller returns `Except String α`;
  a total (never-raising) function returns a plain value.
* The mutable object state (`self.microphone`, `self.is_listening`,
  thread creation) is a record `VoiceRecognizer`, threaded explicitly.
  The counters `threads_spawned`, `acquisitions` and `calibrations`
  instrument how often a worker thread is started, how often
  `sr.Microphone()` succeeds, and how often `adjust_for_ambient_noise`
  runs — the spec asks for these call counts.
* The worker loop (`audio_capture_thread`) is driven by a finite script of
  listen outcomes; one iteration maps an outcome to the list of callback
  invocations it performs (`OutEvent.status` for the status callback,
  `OutEvent.text` for the text callback), in order.
-/

/-- Python `str.lower()` as used on the provider text: character-wise
lowering of the string. -/
def pyLower (s : String) : String := String.mk (s.data.map Char.toLower)

/-- Outcome of one call to the transcription provider
(`self.recognizer.recognize_google(audio_data, language="en-US")`):
it returns a text, raises `sr.UnknownValueError`, raises
`sr.RequestError`, or raises some other exception. -/
inductive ProviderResult where
  | success (text : String)
  | unknownValue
  | requestError (msg : String)
  | otherError (msg : String)
deriving DecidableEq, Repr

/-- Embedding of `VoiceRecognizer.recognize_audio` (voice_recognition.py,
lines 25-45).  The `try` body lowercases and returns the provider text;
`except sr.UnknownValueError` returns `None`; `except sr.RequestError`
logs and returns `None`; any other exception is not caught and
propagates to the caller (`Except.error`). -/
def recognize_audio : ProviderResult → Except String (Option String)
  | .success text => .ok (some (pyLower text))
  | .unknownValue => .ok none
  | .requestError _ => .ok none
  | .otherError e => .error e

/-- Outcome of one `self.recognizer.listen(source, timeout=1,
phrase_time_limit=5)` attempt inside the worker loop: a captured audio
segment (tagged with how the provider will answer for it),
`sr.WaitTimeoutError`, or some other exception raised during capture. -/
inductive ListenResult where
  | audio (r : ProviderResult)
  | waitTimeout
  | raiseExc (msg : String)
deriving DecidableEq, Repr

/-- One observable callback invocation made by the worker thread:
either `status_callback s` or `callback t`. -/
inductive OutEvent where
  | status (s : String)
  | text (t : String)
deriving DecidableEq, Repr

/-- `if status_callback: status_callback(s)` — emits the status event only
when a status callback was supplied. -/
def statusOut (hasStatus : Bool) (s : String) : List OutEvent :=
  if hasStatus then [OutEvent.status s] else []

/-- One iteration of the `while self.is_listening` loop in
`audio_capture_thread` (voice_recognition.py, lines 79-103), as the list
of callback invocations it performs, in order:
emit "listening"; listen; on `sr.WaitTimeoutError` continue (nothing
more); on a captured segment emit "processing", run `recognize_audio`,
and call `callback(text)` when the result is truthy (`if text:` — neither
`None` nor the empty string); any other exception from capture or
recognition is caught, "error: ..." is emitted, and the loop continues. -/
def audio_capture_step (hasStatus : Bool) : ListenResult → List OutEvent
  | .waitTimeout => statusOut hasStatus "listening"
  | .raiseExc m =>
      statusOut hasStatus "listening" ++ statusOut hasStatus ("error: " ++ m)
  | .audio r =>
      statusOut hasStatus "listening" ++ statusOut hasStatus "processing" ++
      match recognize_audio r with
      | .error e => statusOut hasStatus ("error: " ++ e)
      | .ok none => []
      | .ok (some t) => if t = "" then [] else [OutEvent.text t]

/-- The worker loop of `audio_capture_thread` run over a finite script of
listen outcomes: each iteration appends its callback invocations and the
loop continues with the rest of the script. -/
def audio_capture_run (hasStatus : Bool) : List ListenResult → List OutEvent
  | [] => []
  | ev :: rest => audio_capture_step hasStatus ev ++ audio_capture_run hasStatus rest

/-- The texts delivered to the `callback` argument, in order. -/
def textsOf (outs : List OutEvent) : List String :=
  outs.filterMap fun e => match e with | .text t => some t | _ => none

/-- The strings delivered to the `status_callback` argument, in order. -/
def statusesOf (outs : List OutEvent) : List String :=
  outs.filterMap fun e => match e with | .status s => some s | _ => none

/-- Controller-visible state of a `VoiceRecognizer` instance
(voice_recognition.py, lines 16-23), with instrumentation counters:
`microphone` — whether `self.microphone` is non-`None`;
`is_listening` — the listening flag;
`threads_spawned` — how many worker threads were ever started;
`acquisitions` — how many times `sr.Microphone()` succeeded;
`calibrations` — how many times `adjust_for_ambient_noise` ran. -/
structure VoiceRecognizer where
  microphone : Bool
  is_listening : Bool
  threads_spawned : Nat
  acquisitions : Nat
  calibrations : Nat
deriving DecidableEq, Repr

/-- State after `VoiceRecognizer.__init__`: no microphone, not listening,
no worker thread ever started, nothing acquired or calibrated. -/
def VoiceRecognizer.init : VoiceRecognizer :=
  { microphone := false, is_listening := false, threads_spawned := 0,
    acquisitions := 0, calibrations := 0 }

/-- Environment of one `listen_continuously` call when microphone
initialization is attempted: `ok` — `sr.Microphone()` and
`adjust_for_ambient_noise` both succeed; `micFail` — `sr.Microphone()`
raises; `calibFail` — `sr.Microphone()` succeeds but
`adjust_for_ambient_noise` raises (note the handle stays assigned). -/
inductive InitEnv where
  | ok
  | micFail (msg : String)
  | calibFail (msg : String)
deriving DecidableEq, Repr

/-- Embedding of `VoiceRecognizer.listen_continuously`
(voice_recognition.py, lines 47-111) at the controller level:
return unchanged if already listening; set the flag; if no microphone
yet, create and calibrate it inside `try` — on any exception the flag is
reset and no thread is started (`sr.Microphone()` failing leaves
`self.microphone` as `None`; a calibration failure leaves the
already-assigned handle in place); finally spawn the worker thread. -/
def listen_continuously (env : InitEnv) (s : VoiceRecognizer) : VoiceRecognizer :=
  if s.is_listening then s
  else
    let s1 := { s with is_listening := true }
    if s1.microphone then
      { s1 with threads_spawned := s1.threads_spawned + 1 }
    else
      match env with
      | .ok =>
          { s1 with microphone := true,
                    acquisitions := s1.acquisitions + 1,
                    calibrations := s1.calibrations + 1,
                    threads_spawned := s1.threads_spawned + 1 }
      | .micFail _ => { s1 with is_listening := false }
      | .calibFail _ =>
          { s1 with microphone := true,
                    acquisitions := s1.acquisitions + 1,
                    is_listening := false }

/-- Embedding of `VoiceRecognizer.stop_listening` (voice_recognition.py,
lines 113-120): clear the listening flag; the bounded `join` and the
clearing of the worker-owned context reference change no
controller-visible field. -/
def stop_listening (s : VoiceRecognizer) : VoiceRecognizer :=
  { s with is_listening := false }

/-- One public operation on the recognizer, with its init environment. -/
inductive Op where
  | start (env : InitEnv)
  | stop
deriving DecidableEq, Repr

/-- Run a sequence of public operations from a state. -/
def runOps (s : VoiceRecognizer) : List Op → VoiceRecognizer
  | [] => s
  | Op.start env :: rest => runOps (listen_continuously env s) rest
  | Op.stop :: rest => runOps (stop_listening s) rest

/-- The scripted microphone of the spec tests: segments whose provider
answers alternate unintelligible / success over the given texts. -/
def altScript : List String → List ListenResult
  | [] => []
  | t :: ts =>
      ListenResult.audio ProviderResult.unknownValue ::
      ListenResult.audio (ProviderResult.success t) :: altScript ts

/-- The scripted microphone of the spec tests: exactly three phrases, then
`n` further listen attempts that all time out. -/
def threePhraseScript (t1 t2 t3 : String) (n : Nat) : List ListenResult :=
  [ListenResult.audio (ProviderResult.success t1),
   ListenResult.audio (ProviderResult.success t2),
   ListenResult.audio (ProviderResult.success t3)] ++
  List.replicate n ListenResult.waitTimeout

/-! ### Helper lemmas -/

theorem textsOf_append (xs ys : List OutEvent) :
    textsOf (xs ++ ys) = textsOf xs ++ textsOf ys := by
  simp [textsOf]

theorem statusesOf_append (xs ys : List OutEvent) :
    statusesOf (xs ++ ys) = statusesOf xs ++ statusesOf ys := by
  simp [statusesOf]

theorem textsOf_statusOut (h : Bool) (s : String) :
    textsOf (statusOut h s) = [] := by
  cases h <;> rfl

theorem textsOf_nil : textsOf [] = [] := rfl

theorem textsOf_text_cons (t : String) (rest : List OutEvent) :
    textsOf (OutEvent.text t :: rest) = t :: textsOf rest := rfl

theorem textsOf_status_cons (s : String) (rest : List OutEvent) :
    textsOf (OutEvent.status s :: rest) = textsOf rest := rfl

theorem statusesOf_nil : statusesOf [] = [] := rfl

theorem statusesOf_status_cons (s : String) (rest : List OutEvent) :
    statusesOf (OutEvent.status s :: rest) = s :: statusesOf rest := rfl

theorem statusesOf_text_cons (t : String) (rest : List OutEvent) :
    statusesOf (OutEvent.text t :: rest) = statusesOf rest := rfl

theorem statusesOf_statusOut (h : Bool) (s : String) :
    statusesOf (statusOut h s) = if h then [s] else [] := by
  cases h <;> rfl

/-! ### Claims about `recognize_audio` -/

/-- C1: `recognize_audio` returns the provider transcription lowercased
when the provider succeeds, an absent result (`none`, not an exception)
when the provider raises `UnknownValueError` (unintelligible speech), and
an absent result (`none`, not an exception) when the provider raises
`RequestError` (service unreachable): no transport failure is propagated
to the caller as an exception. -/
theorem recognize_audio_failure_policy (t m : String) :
    recognize_audio (ProviderResult.success t) = Except.ok (some (pyLower t)) ∧
    recognize_audio ProviderResult.unknownValue = Except.ok none ∧
    recognize_audio (ProviderResult.requestError m) = Except.ok none :=
  ⟨rfl, rfl, rfl⟩

/-- C10: `recognize_audio` catches only the unintelligible-speech and
request-failure exceptions; any other exception raised by the provider
propagates to the caller (`Except.error`), while the three caught or
successful outcomes all return normally (`Except.ok`). -/
theorem recognize_audio_catches_only_two (t m e : String) :
    recognize_audio (ProviderResult.otherError e) = Except.error e ∧
    (∃ o, recognize_audio (ProviderResult.success t) = Except.ok o) ∧
    (∃ o, recognize_audio ProviderResult.unknownValue = Except.ok o) ∧
    (∃ o, recognize_audio (ProviderResult.requestError m) = Except.ok o) :=
  ⟨rfl, ⟨some (pyLower t), rfl⟩, ⟨none, rfl⟩, ⟨none, rfl⟩⟩

/-! ### Claims about `listen_continuously` / `stop_listening` state -/

/-- C2: calling `listen_continuously` while the listening flag is already
true returns the state unchanged: no worker thread is created, no
calibration is performed, no field is modified. -/
theorem listen_continuously_noop_when_listening (env : InitEnv)
    (s : VoiceRecognizer) (h : s.is_listening = true) :
    listen_continuously env s = s := by
  simp [listen_continuously, h]

/-- A concrete already-listening state used to witness C2. -/
def listeningSample : VoiceRecognizer :=
  { microphone := true, is_listening := true, threads_spawned := 1,
    acquisitions := 1, calibrations := 1 }

/-- Witness for C2 at a concrete already-listening state. -/
theorem listen_continuously_noop_when_listening_witness :
    listeningSample.is_listening = true ∧
    listen_continuously InitEnv.ok listeningSample = listeningSample :=
  ⟨rfl, listen_continuously_noop_when_listening InitEnv.ok listeningSample rfl⟩

/-- C5: if microphone acquisition (`micFail`) or ambient-noise calibration
(`calibFail`) raises during `listen_continuously`, the start attempt is
aborted: the listening flag ends false and no worker thread is spawned;
no exception propagates (the embedding is a total function). -/
theorem listen_continuously_init_failure (s : VoiceRecognizer) (msg : String)
    (hl : s.is_listening = false) (hm : s.microphone = false) :
    (listen_continuously (InitEnv.micFail msg) s).is_listening = false ∧
    (listen_continuously (InitEnv.micFail msg) s).threads_spawned = s.threads_spawned ∧
    (listen_continuously (InitEnv.calibFail msg) s).is_listening = false ∧
    (listen_continuously (InitEnv.calibFail msg) s).threads_spawned = s.threads_spawned := by
  simp [listen_continuously, hl, hm]

/-- Witness for C5 at the freshly constructed recognizer. -/
theorem listen_continuously_init_failure_witness :
    (listen_continuously (InitEnv.micFail "no device") VoiceRecognizer.init).is_listening = false ∧
    (listen_continuously (InitEnv.micFail "no device") VoiceRecognizer.init).threads_spawned =
      VoiceRecognizer.init.threads_spawned ∧
    (listen_continuously (InitEnv.calibFail "no device") VoiceRecognizer.init).is_listening = false ∧
    (listen_continuously (InitEnv.calibFail "no device") VoiceRecognizer.init).threads_spawned =
      VoiceRecognizer.init.threads_spawned :=
  listen_continuously_init_failure VoiceRecognizer.init "no device" rfl rfl

/-- C7: `stop_listening` while no session is active leaves the state
unchanged, it is idempotent, and beyond clearing the listening flag it
changes no field (and, being a total function, raises nothing). -/
theorem stop_listening_idempotent (s : VoiceRecognizer) :
    (s.is_listening = false → stop_listening s = s) ∧
    stop_listening (stop_listening s) = stop_listening s ∧
    (stop_listening s).microphone = s.microphone ∧
    (stop_listening s).threads_spawned = s.threads_spawned ∧
    (stop_listening s).acquisitions = s.acquisitions ∧
    (stop_listening s).calibrations = s.calibrations := by
  obtain ⟨mic, lis, th, acq, cal⟩ := s
  refine ⟨fun h => ?_, rfl, rfl, rfl, rfl, rfl⟩
  simp only at h
  simp [stop_listening, h]

/-- Witness for C7 at the freshly constructed recognizer. -/
theorem stop_listening_idempotent_witness :
    stop_listening VoiceRecognizer.init = VoiceRecognizer.init ∧
    stop_listening (stop_listening VoiceRecognizer.init) =
      stop_listening VoiceRecognizer.init :=
  ⟨(stop_listening_idempotent VoiceRecognizer.init).1 rfl,
   (stop_listening_idempotent VoiceRecognizer.init).2.1⟩

/-- Invariant tying the microphone handle to the instrumentation counters:
the handle exists exactly when one acquisition succeeded, at most one
acquisition ever succeeds, and calibration never outruns acquisition. -/
def CalibInv (s : VoiceRecognizer) : Prop :=
  (s.microphone = true ↔ s.acquisitions = 1) ∧
  s.acquisitions ≤ 1 ∧ s.calibrations ≤ s.acquisitions

theorem calibInv_init : CalibInv VoiceRecognizer.init := by
  refine ⟨?_, ?_, ?_⟩ <;> simp [VoiceRecognizer.init, CalibInv]

theorem calibInv_start (env : InitEnv) (s : VoiceRecognizer)
    (h : CalibInv s) : CalibInv (listen_continuously env s) := by
  obtain ⟨mic, lis, th, acq, cal⟩ := s
  obtain ⟨h1, h2, h3⟩ := h
  simp only [CalibInv] at *
  cases lis <;> cases mic <;> cases env <;>
    simp_all [listen_continuously] <;> omega

theorem calibInv_stop (s : VoiceRecognizer) (h : CalibInv s) :
    CalibInv (stop_listening s) := by
  obtain ⟨mic, lis, th, acq, cal⟩ := s
  simpa [CalibInv, stop_listening] using h

theorem calibInv_runOps (ops : List Op) (s : VoiceRecognizer)
    (h : CalibInv s) : CalibInv (runOps s ops) := by
  induction ops generalizing s with
  | nil => exact h
  | cons op rest ih =>
      cases op with
      | start env => exact ih _ (calibInv_start env s h)
      | stop => exact ih _ (calibInv_stop s h)

/-- After `stop_listening`, a `listen_continuously` on a state that already
holds a microphone handle only sets the flag and spawns a fresh worker:
the handle is reused and no second acquisition or calibration happens. -/
theorem stop_start_reuses_microphone (env : InitEnv) (s : VoiceRecognizer)
    (h : s.microphone = true) :
    listen_continuously env (stop_listening s) =
      { s with is_listening := true,
               threads_spawned := s.threads_spawned + 1 } := by
  obtain ⟨mic, lis, th, acq, cal⟩ := s
  simp only at h
  simp [listen_continuously, stop_listening, h]

/-- C6: across any sequence of public operations from a fresh recognizer,
the microphone is successfully acquired at most once and ambient-noise
calibration runs at most once; moreover, if a handle exists,
`stop_listening` followed by `listen_continuously` spawns a fresh worker
while reusing the handle, with no second acquisition or calibration. -/
theorem calibration_at_most_once (ops : List Op) (env : InitEnv) :
    (runOps VoiceRecognizer.init ops).acquisitions ≤ 1 ∧
    (runOps VoiceRecognizer.init ops).calibrations ≤ 1 ∧
    ((runOps VoiceRecognizer.init ops).microphone = true →
      listen_continuously env (stop_listening (runOps VoiceRecognizer.init ops)) =
        { runOps VoiceRecognizer.init ops with
          is_listening := true,
          threads_spawned := (runOps VoiceRecognizer.init ops).threads_spawned + 1 }) := by
  obtain ⟨h1, h2, h3⟩ := calibInv_runOps ops VoiceRecognizer.init calibInv_init
  exact ⟨h2, le_trans h3 h2, fun hm => stop_start_reuses_microphone env _ hm⟩

/-- Witness for C6: one successful start then a stop; restarting reuses
the handle and does not recalibrate. -/
theorem calibration_at_most_once_witness :
    (runOps VoiceRecognizer.init [Op.start InitEnv.ok, Op.stop]).calibrations ≤ 1 ∧
    listen_continuously InitEnv.ok
        (stop_listening (runOps VoiceRecognizer.init [Op.start InitEnv.ok, Op.stop])) =
      { runOps VoiceRecognizer.init [Op.start InitEnv.ok, Op.stop] with
        is_listening := true,
        threads_spawned :=
          (runOps VoiceRecognizer.init [Op.start InitEnv.ok, Op.stop]).threads_spawned + 1 } :=
  ⟨(calibration_at_most_once [Op.start InitEnv.ok, Op.stop] InitEnv.ok).2.1,
   (calibration_at_most_once [Op.start InitEnv.ok, Op.stop] InitEnv.ok).2.2 rfl⟩

/-! ### Claims about the worker loop -/

/-- C4 counterexample: the provider can return the empty string, which
`recognize_audio` passes through as a non-absent result `some ""`, yet the
worker checks Python truthiness (`if text:`) and never invokes the text
callback for it. -/
theorem nonabsent_result_dropped_counterexample :
    recognize_audio (ProviderResult.success "") = Except.ok (some "") ∧
    textsOf (audio_capture_step true (ListenResult.audio (ProviderResult.success ""))) = [] := by
  constructor <;> rfl

/-- C4 (amended): in every worker-loop iteration where `recognize_audio`
produces a non-absent and non-empty result, the text callback is invoked
with exactly that result (and nothing else), synchronously within that
iteration. -/
theorem nonempty_result_invokes_callback (hasStatus : Bool) (r : ProviderResult)
    (t : String) (hok : recognize_audio r = Except.ok (some t)) (hne : t ≠ "") :
    textsOf (audio_capture_step hasStatus (ListenResult.audio r)) = [t] := by
  cases r with
  | success txt =>
      simp only [recognize_audio, Except.ok.injEq, Option.some.injEq] at hok
      subst hok
      simp [audio_capture_step, recognize_audio, textsOf_append, textsOf_statusOut,
            hne, textsOf_text_cons, textsOf_nil]
  | unknownValue => simp [recognize_audio] at hok
  | requestError m => simp [recognize_audio] at hok
  | otherError e => simp [recognize_audio] at hok

/-- Witness for the amended C4 at a concrete provider result. -/
theorem nonempty_result_invokes_callback_witness :
    textsOf (audio_capture_step true (ListenResult.audio (ProviderResult.success "Hi"))) =
      ["hi"] :=
  nonempty_result_invokes_callback true (ProviderResult.success "Hi") "hi" rfl (by decide)

/-- Trailing capture timeouts never deliver any text. -/
theorem timeouts_produce_no_text (hasStatus : Bool) (n : Nat) :
    textsOf (audio_capture_run hasStatus (List.replicate n ListenResult.waitTimeout)) = [] := by
  induction n with
  | zero => rfl
  | succ k ih =>
      simp [List.replicate_succ, audio_capture_run, textsOf_append, ih,
            audio_capture_step, textsOf_statusOut]

/-- C3 counterexample: a three-phrase script whose second transcription is
the empty string invokes the text callback only twice, not three times,
because of the Python truthiness check (`if text:`). -/
theorem three_phrases_empty_transcription_counterexample :
    textsOf (audio_capture_run true (threePhraseScript "A" "" "B" 2)) =
      [pyLower "A", pyLower "B"] ∧
    (textsOf (audio_capture_run true (threePhraseScript "A" "" "B" 2))).length ≠ 3 := by
  constructor <;> decide

/-- C3 (amended): for a scripted microphone yielding exactly three phrases
whose lowercased transcriptions are non-empty, followed by any number of
timed-out listen attempts, the text callback is invoked exactly three
times with exactly the lowercased transcriptions, in capture order. -/
theorem three_phrases_in_order (t1 t2 t3 : String) (n : Nat) (hasStatus : Bool)
    (h1 : pyLower t1 ≠ "") (h2 : pyLower t2 ≠ "") (h3 : pyLower t3 ≠ "") :
    textsOf (audio_capture_run hasStatus (threePhraseScript t1 t2 t3 n)) =
      [pyLower t1, pyLower t2, pyLower t3] := by
  simp [threePhraseScript, audio_capture_run, textsOf_append, audio_capture_step,
        recognize_audio, textsOf_statusOut, h1, h2, h3, timeouts_produce_no_text,
        textsOf_text_cons, textsOf_nil]

/-- Witness for the amended C3 at three concrete phrases. -/
theorem three_phrases_in_order_witness :
    textsOf (audio_capture_run true (threePhraseScript "One" "Two" "Three" 4)) =
      [pyLower "One", pyLower "Two", pyLower "Three"] :=
  three_phrases_in_order "One" "Two" "Three" 4 true (by decide) (by decide) (by decide)

/-- A status string coming out of `statusOut` is the string passed in. -/
theorem mem_statusesOf_statusOut (h : Bool) (x s : String)
    (hs : s ∈ statusesOf (statusOut h x)) : s = x := by
  cases h <;> simp [statusOut, statusesOf_status_cons, statusesOf_nil] at hs
  exact hs

/-- Every status emitted by one worker iteration is "listening",
"processing", or an "error: ..." string. -/
theorem step_status_forms (hasStatus : Bool) (ev : ListenResult) (s : String)
    (h : s ∈ statusesOf (audio_capture_step hasStatus ev)) :
    s = "listening" ∨ s = "processing" ∨ ∃ m, s = "error: " ++ m := by
  cases ev with
  | waitTimeout => exact Or.inl (mem_statusesOf_statusOut _ _ _ h)
  | raiseExc m =>
      simp only [audio_capture_step, statusesOf_append] at h
      rcases List.mem_append.mp h with h | h
      · exact Or.inl (mem_statusesOf_statusOut _ _ _ h)
      · exact Or.inr (Or.inr ⟨m, mem_statusesOf_statusOut _ _ _ h⟩)
  | audio r =>
      cases r with
      | success txt =>
          simp only [audio_capture_step, recognize_audio, statusesOf_append] at h
          rcases List.mem_append.mp h with h | h
          · rcases List.mem_append.mp h with h | h
            · exact Or.inl (mem_statusesOf_statusOut _ _ _ h)
            · exact Or.inr (Or.inl (mem_statusesOf_statusOut _ _ _ h))
          · rcases Decidable.em (pyLower txt = "") with he | he <;>
              simp [he, statusesOf_text_cons, statusesOf_nil, statusesOf] at h
      | unknownValue =>
          simp only [audio_capture_step, recognize_audio, statusesOf_append] at h
          rcases List.mem_append.mp h with h | h
          · rcases List.mem_append.mp h with h | h
            · exact Or.inl (mem_statusesOf_statusOut _ _ _ h)
            · exact Or.inr (Or.inl (mem_statusesOf_statusOut _ _ _ h))
          · simp [statusesOf_nil, statusesOf] at h
      | requestError m =>
          simp only [audio_capture_step, recognize_audio, statusesOf_append] at h
          rcases List.mem_append.mp h with h | h
          · rcases List.mem_append.mp h with h | h
            · exact Or.inl (mem_statusesOf_statusOut _ _ _ h)
            · exact Or.inr (Or.inl (mem_statusesOf_statusOut _ _ _ h))
          · simp [statusesOf_nil, statusesOf] at h
      | otherError e =>
          simp only [audio_capture_step, recognize_audio, statusesOf_append] at h
          rcases List.mem_append.mp h with h | h
          · rcases List.mem_append.mp h with h | h
            · exact Or.inl (mem_statusesOf_statusOut _ _ _ h)
            · exact Or.inr (Or.inl (mem_statusesOf_statusOut _ _ _ h))
          · exact Or.inr (Or.inr ⟨e, mem_statusesOf_statusOut _ _ _ h⟩)

/-- Every status emitted over a whole run keeps the three allowed forms. -/
theorem run_status_forms (hasStatus : Bool) (script : List ListenResult)
    (s : String) (h : s ∈ statusesOf (audio_capture_run hasStatus script)) :
    s = "listening" ∨ s = "processing" ∨ ∃ m, s = "error: " ++ m := by
  induction script with
  | nil => simp [audio_capture_run, statusesOf_nil] at h
  | cons ev rest ih =>
      simp only [audio_capture_run, statusesOf_append] at h
      rcases List.mem_append.mp h with h | h
      · exact step_status_forms hasStatus ev s h
      · exact ih h

/-- Every element of the alternating script is an audio segment whose
provider answer is unintelligible or a success over one of the texts. -/
theorem altScript_mem (ts : List String) (ev : ListenResult)
    (h : ev ∈ altScript ts) :
    ev = ListenResult.audio ProviderResult.unknownValue ∨
    ∃ t, t ∈ ts ∧ ev = ListenResult.audio (ProviderResult.success t) := by
  induction ts with
  | nil => simp [altScript] at h
  | cons v ts ih =>
      simp only [altScript, List.mem_cons] at h
      rcases h with h | h | h
      · exact Or.inl h
      · exact Or.inr ⟨v, by simp, h⟩
      · rcases ih h with h | ⟨u, hu, he⟩
        · exact Or.inl h
        · exact Or.inr ⟨u, by simp [hu], he⟩

/-- Each attempt of the alternating script emits exactly "listening" then
"processing", once each, in that order. -/
theorem alt_attempt_statuses (ts : List String) (ev : ListenResult)
    (h : ev ∈ altScript ts) :
    statusesOf (audio_capture_step true ev) = ["listening", "processing"] := by
  rcases altScript_mem ts ev h with he | ⟨t, _, he⟩ <;> subst he <;>
    simp [audio_capture_step, recognize_audio, statusesOf_append, statusOut,
          statusesOf_status_cons, statusesOf_text_cons, statusesOf_nil, apply_ite,
          statusesOf]

/-- An unintelligible segment never reaches the text callback. -/
theorem unintelligible_step_no_text (hasStatus : Bool) :
    textsOf (audio_capture_step hasStatus
      (ListenResult.audio ProviderResult.unknownValue)) = [] := by
  simp [audio_capture_step, recognize_audio, textsOf_append, textsOf_statusOut,
        textsOf_nil]

/-- The texts delivered on a successful segment. -/
theorem success_step_texts (hasStatus : Bool) (v : String) :
    textsOf (audio_capture_step hasStatus
        (ListenResult.audio (ProviderResult.success v))) =
      if pyLower v = "" then [] else [pyLower v] := by
  rcases Decidable.em (pyLower v = "") with he | he <;>
    simp [audio_capture_step, recognize_audio, textsOf_append, textsOf_statusOut,
          textsOf_text_cons, textsOf_nil, he]

/-- Over the alternating script, every delivered text is the lowercasing
of one of the scripted success texts — never of an unintelligible entry. -/
theorem alt_texts_from_success (ts : List String) (t : String)
    (h : t ∈ textsOf (audio_capture_run true (altScript ts))) :
    ∃ u, u ∈ ts ∧ t = pyLower u := by
  induction ts with
  | nil => simp [altScript, audio_capture_run, textsOf_nil] at h
  | cons v ts ih =>
      simp only [altScript, audio_capture_run, textsOf_append] at h
      rcases List.mem_append.mp h with h | h
      · rw [unintelligible_step_no_text] at h
        simp at h
      · rcases List.mem_append.mp h with h | h
        · rw [success_step_texts] at h
          rcases Decidable.em (pyLower v = "") with he | he <;> simp [he] at h
          exact ⟨v, by simp, h⟩
        · rcases ih h with ⟨u, hu, ht⟩
          exact ⟨u, by simp [hu], ht⟩

/-- C8: every string passed to the status callback is exactly
"listening", "processing", or a string beginning "error: "; on the
alternating unintelligible/success script each capture attempt shows the
status callback "listening" then "processing" exactly once each, in that
order; and every text the callback receives on that script comes from a
success entry — never from an unintelligible one. -/
theorem status_callback_contract :
    (∀ (hasStatus : Bool) (script : List ListenResult) (s : String),
        s ∈ statusesOf (audio_capture_run hasStatus script) →
        s = "listening" ∨ s = "processing" ∨ ∃ m, s = "error: " ++ m) ∧
    (∀ (ts : List String) (ev : ListenResult), ev ∈ altScript ts →
        statusesOf (audio_capture_step true ev) = ["listening", "processing"]) ∧
    (∀ (ts : List String) (t : String),
        t ∈ textsOf (audio_capture_run true (altScript ts)) →
        ∃ u, u ∈ ts ∧ t = pyLower u) :=
  ⟨run_status_forms, alt_attempt_statuses, alt_texts_from_success⟩

/-- Witness for C8 at concrete scripts. -/
theorem status_callback_contract_witness :
    ("listening" = "listening" ∨ "listening" = "processing" ∨
      ∃ m, "listening" = "error: " ++ m) ∧
    statusesOf (audio_capture_step true
        (ListenResult.audio ProviderResult.unknownValue)) =
      ["listening", "processing"] ∧
    (∃ u, u ∈ ["Hi"] ∧ "hi" = pyLower u) :=
  ⟨status_callback_contract.1 true [ListenResult.waitTimeout] "listening" (by decide),
   status_callback_contract.2.1 ["Hi"]
     (ListenResult.audio ProviderResult.unknownValue) (by decide),
   status_callback_contract.2.2 ["Hi"] "hi" (by decide)⟩

/-- The worker loop processes every scripted iteration: outputs compose
over script concatenation, so no prefix of failing iterations removes the
processing of later iterations. -/
theorem run_append (hasStatus : Bool) (pre post : List ListenResult) :
    audio_capture_run hasStatus (pre ++ post) =
      audio_capture_run hasStatus pre ++ audio_capture_run hasStatus post := by
  induction pre with
  | nil => rfl
  | cons ev rest ih => simp [audio_capture_run, ih]

/-- C9: no single iteration terminates the worker loop — events after any
iteration are still processed; a capture timeout emits no status other
than "listening" (no error status); any other exception during capture is
reported via the status callback as "error: ..."; and an exception
propagating out of `recognize_audio` is likewise caught and reported as
"error: ..." — in all cases the loop continues. -/
theorem worker_loop_survives_iteration_failures :
    (∀ (hasStatus : Bool) (pre post : List ListenResult),
        audio_capture_run hasStatus (pre ++ post) =
          audio_capture_run hasStatus pre ++ audio_capture_run hasStatus post) ∧
    (∀ (hasStatus : Bool) (s : String),
        s ∈ statusesOf (audio_capture_step hasStatus ListenResult.waitTimeout) →
        s = "listening") ∧
    (∀ m : String,
        OutEvent.status ("error: " ++ m) ∈
          audio_capture_step true (ListenResult.raiseExc m)) ∧
    (∀ (r : ProviderResult) (e : String), recognize_audio r = Except.error e →
        OutEvent.status ("error: " ++ e) ∈
          audio_capture_step true (ListenResult.audio r)) := by
  refine ⟨run_append, ?_, ?_, ?_⟩
  · intro hasStatus s h
    exact mem_statusesOf_statusOut _ _ _ h
  · intro m
    simp [audio_capture_step, statusOut]
  · intro r e h
    cases r with
    | success txt => simp [recognize_audio] at h
    | unknownValue => simp [recognize_audio] at h
    | requestError m => simp [recognize_audio] at h
    | otherError m =>
        have hm : m = e := by simpa [recognize_audio] using h
        subst hm
        simp [audio_capture_step, recognize_audio, statusOut]

/-- Witness for C9 at a concrete failing script. -/
theorem worker_loop_survives_iteration_failures_witness :
    audio_capture_run true ([ListenResult.raiseExc "boom"] ++ [ListenResult.waitTimeout]) =
      audio_capture_run true [ListenResult.raiseExc "boom"] ++
        audio_capture_run true [ListenResult.waitTimeout] ∧
    "listening" = "listening" ∧
    OutEvent.status ("error: " ++ "boom") ∈
      audio_capture_step true (ListenResult.raiseExc "boom") ∧
    OutEvent.status ("error: " ++ "oops") ∈
      audio_capture_step true (ListenResult.audio (ProviderResult.otherError "oops")) :=
  ⟨worker_loop_survives_iteration_failures.1 true
      [ListenResult.raiseExc "boom"] [ListenResult.waitTimeout],
   worker_loop_survives_iteration_failures.2.1 true "listening" (by decide),
   worker_loop_survives_iteration_failures.2.2.1 "boom",
   worker_loop_survives_iteration_failures.2.2.2 (ProviderResult.otherError "oops") "oops" rfl⟩
